import Mathlib

/-!
Verification development for the DM outreach bot.

The definitions below are a shallow embedding of the JavaScript sources:
  - `src/messageDrafter.js`   (message personalization, input location,
    typed input, post-write verification),
  - `src/main_messageDrafter.js` (per-account processor `processUser` and
    the run orchestrator loop),
  - `src/sheetsManager.js`    (the outcome writer `updateDraftData`).

Strings are modelled by Lean `String` (a list of characters); JavaScript
`null`/`undefined` values are modelled by `Option`; a thrown exception is
modelled by `Except` or by an explicit fault input.  Browser effects
(navigation, DOM queries, keystrokes, read-back) are modelled by explicit
environment records carrying the values the external surfaces return.
-/

/-- JavaScript `String.prototype.trim` on the character list: drop
whitespace from both ends. -/
def jsTrimList (l : List Char) : List Char :=
  ((l.dropWhile Char.isWhitespace).reverse.dropWhile Char.isWhitespace).reverse

/-- JavaScript `s.trim()`. -/
def jsTrim (s : String) : String :=
  String.mk (jsTrimList s.data)

/-- JavaScript `s.slice(0, i)` (character-level). -/
def jsSliceTo (s : String) (i : Nat) : String :=
  String.mk (s.data.take i)

/-- JavaScript `s.slice(i)` (character-level). -/
def jsSliceFrom (s : String) (i : Nat) : String :=
  String.mk (s.data.drop i)

/-- JavaScript `s || d` for an optional string: `null`/`undefined` and the
empty string are falsy. -/
def jsOr (o : Option String) (d : String) : String :=
  match o with
  | none => d
  | some s => if s == "" then d else s

/-- JavaScript `m || d` for a plain string. -/
def jsOrS (m d : String) : String :=
  if m == "" then d else m

/-- The apostrophe character (code point 39). -/
def apostropheChar : Char := Char.ofNat 39

/-- The literal prefix `What-apostrophe-s up ` used by the personalizer. -/
def whatsUpGreeting : String := "What" ++ String.singleton apostropheChar ++ "s up "

/-- JavaScript `baseMessage.indexOf(bang)`: index of the first exclamation
character, `none` when absent (`indexOf` returns -1). -/
def bangIndex (s : String) : Option Nat :=
  s.data.findIdx? (fun c => c == '!')

/-- STEP 2 of `draftMessage` (src/messageDrafter.js lines 38-47): build the
personalized message.  When the name is trusted and trims non-empty, insert
a space and the trimmed name before the first exclamation character, or
prepend the greeting when the template has none; otherwise the template is
returned unchanged. -/
def composeMessage (baseMessage firstName : String) (nameFound : Bool) : String :=
  if nameFound && !(jsTrim firstName == "") then
    match bangIndex baseMessage with
    | none => whatsUpGreeting ++ jsTrim firstName ++ "! " ++ baseMessage
    | some i => jsSliceTo baseMessage i ++ " " ++ jsTrim firstName ++ jsSliceFrom baseMessage i
  else baseMessage

/-- STEP 1 of `draftMessage` (src/messageDrafter.js lines 19-29): resolve
the first name.  `optFirstName`/`optNameFound` are `options.firstName` and
`options.nameFound`; `extracted` is the result `(firstName, success)` of
`extractFirstName` consulted when no name was passed in. -/
def resolveName (optFirstName : Option String) (optNameFound : Option Bool)
    (extracted : String × Bool) : String × Bool :=
  let firstName := jsOr optFirstName ""
  if firstName == "" then extracted
  else (firstName, optNameFound.getD (!(jsTrim firstName == "")))

/-- Result record returned by `draftMessage` (src/messageDrafter.js):
`success`, and the optional `firstName`, `message`, `typedText` fields. -/
structure DraftResult where
  success : Bool
  firstName : Option String
  message : Option String
  typedText : Option String
deriving DecidableEq, Repr

/-- STEP 6 of `draftMessage` (src/messageDrafter.js line 107): the
verification condition `typedText && typedText.trim() === message.trim()`.
`typedText` is the read-back `el.innerText || el.textContent`; `none`
models `null`/`undefined`, and the empty string is falsy. -/
def verifyDraft (message : String) (typedText : Option String) : Bool :=
  match typedText with
  | none => false
  | some t => !(t == "") && (jsTrim t == jsTrim message)

/-- The drafting operation `draftMessage` (src/messageDrafter.js lines
31-115) after name resolution: `baseMessage` is the template, the name is
already resolved to `(firstName, nameFound)`, `inputFound` tells whether
any selector located the DM input, and `typedText` is the verification
read-back for the located element. -/
def draftMessage (baseMessage firstName : String) (nameFound : Bool)
    (inputFound : Bool) (typedText : Option String) : DraftResult :=
  let message := composeMessage baseMessage firstName nameFound
  if inputFound = false then
    { success := false, firstName := some firstName, message := some message,
      typedText := none }
  else if verifyDraft message typedText then
    { success := true, firstName := some firstName, message := some message,
      typedText := typedText }
  else
    { success := false, firstName := some firstName, message := some message,
      typedText := typedText }

/-- Spec-level personalization formula (spec section 4.1), stated from the
specification text for refinement against `composeMessage`: the name
argument is the already-trimmed first name. -/
def specPersonalize (template trimmedFirstName : String) : String :=
  match bangIndex template with
  | some i =>
      jsSliceTo template i ++ " " ++ trimmedFirstName ++ jsSliceFrom template i
  | none => whatsUpGreeting ++ trimmedFirstName ++ "! " ++ template

/-- One account row handed to the run orchestrator (username already
normalized, `rowIndex` the 1-based sheet row). -/
structure AccountRecord where
  username : String
  rowIndex : Nat
deriving DecidableEq, Repr

/-- Result of `openDMController` (consumed in src/main_messageDrafter.js
lines 87-95). -/
structure DMOpenResult where
  success : Bool
  error : Option String
  used : String
deriving DecidableEq, Repr

/-- Result of `detectExistingConversation` (consumed in
src/main_messageDrafter.js lines 102-109). -/
structure ConvoResult where
  hasConversation : Bool
  messageCount : Nat
deriving DecidableEq, Repr

/-- Environment driving one `processUser` call: what each awaited step
returns.  `nav = some m` models `navigateToProfile` throwing with message
`m`; `dmOpen`/`convo` may throw (`Except.error`) or return their result;
`draft` is the result `draftMessage` would return if it is invoked. -/
structure ProcessEnv where
  nav : Option String
  dmOpen : Except String DMOpenResult
  convo : Except String ConvoResult
  draft : DraftResult
deriving Repr

/-- The result record built by `processUser` (src/main_messageDrafter.js
lines 72-79). -/
structure ProcessResult where
  username : String
  rowIndex : Nat
  success : Bool
  skipped : Bool
  error : Option String
  message : Option String
deriving DecidableEq, Repr

/-- Per-account processor `processUser` (src/main_messageDrafter.js lines
70-134).  Returns the result record together with a flag recording whether
`draftMessage` was invoked.  Every fault from a step is caught by the
surrounding try/catch and stored in `error` (a thrown fault is modelled by
its `error.message`; `String(error)` for a message-less Error renders as
`Error`). -/
def processUser (row : AccountRecord) (env : ProcessEnv) : ProcessResult × Bool :=
  let base : ProcessResult :=
    { username := row.username, rowIndex := row.rowIndex, success := false,
      skipped := false, error := none, message := none }
  match env.nav with
  | some m => ({ base with error := some (jsOrS m "Error") }, false)
  | none =>
    match env.dmOpen with
    | .error m => ({ base with error := some (jsOrS m "Error") }, false)
    | .ok dm =>
      if dm.success = false then
        ({ base with
            error := some ("Failed to open DM: " ++ jsOr dm.error "Unknown error") },
          false)
      else
        match env.convo with
        | .error m => ({ base with error := some (jsOrS m "Error") }, false)
        | .ok c =>
          if c.hasConversation then
            ({ base with
                skipped := true
                error := some ("Existing conversation detected ("
                  ++ toString c.messageCount ++ " messages)") }, false)
          else
            if env.draft.success then
              ({ base with success := true, message := env.draft.message }, true)
            else
              ({ base with
                  error := some "Failed to draft message: Unknown error" }, true)

/-- Terminal per-account outcome (spec ProcessingOutcome): exactly one of
Drafted / Skipped / Failed, with its payload. -/
inductive Outcome where
  | drafted (message : Option String)
  | skipped (reason : String)
  | failed (error : String)
deriving DecidableEq, Repr

/-- Environment for one iteration of the run-orchestrator loop:
`penv` drives `processUser`; `unexpectedFault = some m` models the
`processUser` call itself rejecting with message `m` (caught by the outer
catch at src/main_messageDrafter.js lines 295-309); `persistFails` tells
whether the `updateDraftData` call for this account throws. -/
structure RunAccountEnv where
  penv : ProcessEnv
  unexpectedFault : Option String
  persistFails : Bool
deriving Repr

/-- Effect of one loop iteration on the run state (src/main_messageDrafter.js
lines 246-322): the classified outcome, whether the tab is retained
(`draftingSucceeded`), and the counter increments.  A persistence failure
matters for the counters only in the success branch (lines 273-278), where
it yields `errorCount++` instead of `draftedCount++` and the tab is still
kept open. -/
structure StepOut where
  outcome : Outcome
  tabRetained : Bool
  draftedInc : Nat
  skippedInc : Nat
  errorInc : Nat
deriving DecidableEq, Repr

/-- One iteration body of the run loop for a single account. -/
def processAccount (row : AccountRecord) (aenv : RunAccountEnv) : StepOut :=
  match aenv.unexpectedFault with
  | some m =>
      { outcome := .failed (jsOrS m "Unexpected error"), tabRetained := false,
        draftedInc := 0, skippedInc := 0, errorInc := 1 }
  | none =>
      let r := (processUser row aenv.penv).1
      if r.skipped then
        { outcome := .skipped (jsOr r.error ""), tabRetained := false,
          draftedInc := 0, skippedInc := 1, errorInc := 0 }
      else if r.success then
        if aenv.persistFails then
          { outcome := .drafted r.message, tabRetained := true,
            draftedInc := 0, skippedInc := 0, errorInc := 1 }
        else
          { outcome := .drafted r.message, tabRetained := true,
            draftedInc := 1, skippedInc := 0, errorInc := 0 }
      else
        { outcome := .failed (jsOr r.error "Unknown error"), tabRetained := false,
          draftedInc := 0, skippedInc := 0, errorInc := 1 }

/-- Run statistics and bookkeeping (spec RunStatistics plus the retained
tab set). -/
structure RunStats where
  draftedCount : Nat
  skippedCount : Nat
  errorCount : Nat
  processed : List (AccountRecord × Outcome)
  retainedTabs : List String
deriving DecidableEq, Repr

/-- Empty statistics at run start. -/
def initStats : RunStats :=
  { draftedCount := 0, skippedCount := 0, errorCount := 0,
    processed := [], retainedTabs := [] }

/-- Fold one account outcome into the run state. -/
def applyStep (s : RunStats) (row : AccountRecord) (o : StepOut) : RunStats :=
  { draftedCount := s.draftedCount + o.draftedInc,
    skippedCount := s.skippedCount + o.skippedInc,
    errorCount := s.errorCount + o.errorInc,
    processed := s.processed ++ [(row, o.outcome)],
    retainedTabs :=
      if o.tabRetained then s.retainedTabs ++ [row.username] else s.retainedTabs }

/-- The run-orchestrator loop (src/main_messageDrafter.js lines 231-333):
`for (let i = 0; i < filteredRows.length && draftedCount < maxDraft; i++)`
with the equivalent bottom break once `draftedCount >= maxDraft`. -/
def runLoop (maxDraft : Nat) : List (AccountRecord × RunAccountEnv) → RunStats → RunStats
  | [], s => s
  | (row, aenv) :: rest, s =>
    if s.draftedCount < maxDraft then
      runLoop maxDraft rest (applyStep s row (processAccount row aenv))
    else s

/-- A whole (non-dry) run over the filtered account list. -/
def runDrafting (maxDraft : Nat) (accts : List (AccountRecord × RunAccountEnv)) : RunStats :=
  runLoop maxDraft accts initStats

/-- JavaScript `l.slice(start, stop)` on lists. -/
def jsSlice (l : List α) (start stop : Nat) : List α :=
  (l.drop start).take (stop - start)

/-- Dry-run report (src/main_messageDrafter.js line 197): the rows logged
as the users that would be processed, `filteredRows.slice(0, maxDraft)`. -/
def dryRunReport (filteredRows : List AccountRecord) (maxDraft : Nat) : List AccountRecord :=
  jsSlice filteredRows 0 maxDraft

/-- The sheet contents, as a total map from (1-based row, 0-based column)
to the cell text. -/
def SheetState : Type := Nat → Nat → String

/-- Column index of Date Sent (src/sheetsManager.js COLUMN_INDICES). -/
def DATE_SENT_COL : Nat := 3

/-- Column index of Message (src/sheetsManager.js COLUMN_INDICES). -/
def MESSAGE_COL : Nat := 4

/-- Column index of Status (src/sheetsManager.js COLUMN_INDICES). -/
def STATUS_COL : Nat := 5

/-- The effect on the sheet of the range write
`SheetName!D{row}:F{row} <- [[dateSent, message, status]]`
issued by `updateDraftData`: the three cells of the addressed row change,
nothing else does. -/
def writeDraftCells (sheet : SheetState) (rowIndex : Nat)
    (dateSent message status : String) : SheetState :=
  fun r c =>
    if r = rowIndex ∧ c = DATE_SENT_COL then dateSent
    else if r = rowIndex ∧ c = MESSAGE_COL then message
    else if r = rowIndex ∧ c = STATUS_COL then status
    else sheet r c

/-- The outcome writer `updateDraftData` (src/sheetsManager.js lines
250-299).  The JavaScript row index is a Number, modelled as a rational so
that the `Number.isInteger(rowIndex)` guard is expressible (`den = 1`).
The validation guards throw, in source order, before any write is issued;
`apiFails` models the Sheets API call itself rejecting, in which case
nothing is written either. -/
def updateDraftData (sheet : SheetState) (rowIndex : Rat)
    (dateSent message status : String) (apiFails : Bool) : Except String SheetState :=
  if ¬(rowIndex.den = 1 ∧ 2 ≤ rowIndex) then
    .error "Invalid rowIndex: must be an integer >= 2 (row 1 is header)"
  else if jsTrim dateSent = "" then
    .error "dateSent must be a non-empty string"
  else if jsTrim status = "" then
    .error "status must be a non-empty string"
  else if apiFails then
    .error "Failed to update row in sheet"
  else
    .ok (writeDraftCells sheet rowIndex.num.toNat dateSent message status)


/-! Concrete fixtures used by witnesses and counterexamples. -/

/-- A first test account. -/
def accountA : AccountRecord := { username := "alice", rowIndex := 2 }

/-- A second test account. -/
def accountB : AccountRecord := { username := "bob", rowIndex := 3 }

/-- A successful thread-open result. -/
def dmOpenOK : DMOpenResult := { success := true, error := none, used := "message button" }

/-- A probe result reporting existing history. -/
def convoYes : ConvoResult := { hasConversation := true, messageCount := 3 }

/-- A probe result reporting no history. -/
def convoNo : ConvoResult := { hasConversation := false, messageCount := 0 }

/-- A successful drafting result. -/
def draftOK : DraftResult :=
  { success := true, firstName := some "Alice", message := some "Hi Alice! Welcome",
    typedText := some "Hi Alice! Welcome" }

/-- A per-account environment in which every step succeeds and drafting
verifies. -/
def penvDraftOK : ProcessEnv :=
  { nav := none, dmOpen := .ok dmOpenOK, convo := .ok convoNo, draft := draftOK }

/-- A per-account environment whose conversation probe reports existing
history. -/
def penvConvo : ProcessEnv :=
  { nav := none, dmOpen := .ok dmOpenOK, convo := .ok convoYes, draft := draftOK }

/-- Loop environment: drafting succeeds and persistence succeeds. -/
def envDraftOK : RunAccountEnv :=
  { penv := penvDraftOK, unexpectedFault := none, persistFails := false }

/-- Loop environment: drafting succeeds but the sheet write fails. -/
def envDraftPersistFail : RunAccountEnv :=
  { penv := penvDraftOK, unexpectedFault := none, persistFails := true }

/-- Loop environment: the account is skipped for an existing conversation. -/
def envSkip : RunAccountEnv :=
  { penv := penvConvo, unexpectedFault := none, persistFails := false }

/-- Loop environment: the processUser call rejects with an unexpected fault. -/
def envFault : RunAccountEnv :=
  { penv := penvDraftOK, unexpectedFault := some "boom", persistFails := false }

/-- Loop environment: navigation throws inside processUser. -/
def envNavFault : RunAccountEnv :=
  { penv := { nav := some "navboom", dmOpen := .ok dmOpenOK, convo := .ok convoNo,
              draft := draftOK },
    unexpectedFault := none, persistFails := false }

/-- Loop environment: the thread opener throws inside processUser. -/
def envOpenFault : RunAccountEnv :=
  { penv := { nav := none, dmOpen := .error "openboom", convo := .ok convoNo,
              draft := draftOK },
    unexpectedFault := none, persistFails := false }

/-- Loop environment: the conversation probe throws inside processUser. -/
def envConvoFault : RunAccountEnv :=
  { penv := { nav := none, dmOpen := .ok dmOpenOK, convo := .error "convoboom",
              draft := draftOK },
    unexpectedFault := none, persistFails := false }

/-- Five eligible accounts that would all draft successfully. -/
def fiveAccounts : List (AccountRecord × RunAccountEnv) :=
  [({ username := "u1", rowIndex := 2 }, envDraftOK),
   ({ username := "u2", rowIndex := 3 }, envDraftOK),
   ({ username := "u3", rowIndex := 4 }, envDraftOK),
   ({ username := "u4", rowIndex := 5 }, envDraftOK),
   ({ username := "u5", rowIndex := 6 }, envDraftOK)]

/-- A run state already at a drafted count of two. -/
def statsAtCap : RunStats :=
  { draftedCount := 2, skippedCount := 0, errorCount := 0, processed := [],
    retainedTabs := [] }

/-- The all-blank sheet. -/
def emptySheet : SheetState := fun _ _ => ""

/-! Helper lemmas shared between the claim theorems. -/

/-- A successful processUser result is never simultaneously skipped. -/
theorem processUser_success_not_skipped (row : AccountRecord) (env : ProcessEnv) :
    (processUser row env).1.success = true → (processUser row env).1.skipped = false := by
  rcases env with ⟨nav, dmOpen, convo, draft⟩
  cases nav with
  | some m => simp [processUser]
  | none =>
    cases dmOpen with
    | error m => simp [processUser]
    | ok dm =>
      by_cases hdm : dm.success = false
      · simp [processUser, hdm]
      · cases convo with
        | error m => simp [processUser, hdm]
        | ok c =>
          by_cases hc : c.hasConversation <;> by_cases hd : draft.success <;>
            simp [processUser, hdm, hc, hd]

/-- The success flag of a draft attempt with a located input is exactly the
verification condition. -/
theorem draftMessage_success_eq (b n : String) (f : Bool) (o : Option String) :
    (draftMessage b n f true o).success = verifyDraft (composeMessage b n f) o := by
  unfold draftMessage
  split
  · simp_all
  · dsimp only
    split <;> simp_all

/-- Claim C1, counterexample: for the composed message consisting of one
space and an observed read-back of the empty string, the trimmed texts are
equal, yet the draft attempt with a located input reports failure — the
verifier additionally requires the observed text to be non-empty, so a
purely-whitespace trim-equal pair is rejected. -/
theorem claim_C1_counterexample :
    (draftMessage " " "" false true (some "")).message = some " " ∧
    jsTrim "" = jsTrim " " ∧
    (draftMessage " " "" false true (some "")).success = false := by
  decide

/-- Claim C1 (amended): for every draft attempt in which an input element
was located, the result succeeds if and only if the observed text is
present, non-empty, and trim-equal to the composed message; in particular,
for non-empty observed text, leading/trailing whitespace differences never
cause a false failure and any interior character difference always causes
failure. -/
theorem claim_C1_verification_equivalence :
    ∀ (base name : String) (nameFound : Bool) (o : Option String),
      (draftMessage base name nameFound true o).success = true ↔
        ∃ t, o = some t ∧ t ≠ "" ∧ jsTrim t = jsTrim (composeMessage base name nameFound) := by
  intro base name nameFound o
  rw [draftMessage_success_eq]
  cases o with
  | none => simp [verifyDraft]
  | some t => simp [verifyDraft, and_assoc]

/-- Claim C5: for every template and every resolved first name that trims
non-empty, the composed message follows the spec formula — insert a space
and the trimmed name before the first exclamation character when one
exists, otherwise prepend the greeting; in particular the two example
templates compose as the spec states. -/
theorem claim_C5_personalization_insertion :
    (∀ t n, t ≠ "" → jsTrim n ≠ "" →
        composeMessage t n true = specPersonalize t (jsTrim n)) ∧
    composeMessage "Hi! Welcome" "Alex" true = "Hi Alex! Welcome" ∧
    composeMessage "Hello there" "Sam" true = whatsUpGreeting ++ "Sam! Hello there" := by
  refine ⟨?_, by decide, by decide⟩
  intro t n ht hn
  have hb : (jsTrim n == "") = false := by
    simpa using hn
  unfold composeMessage specPersonalize
  rw [hb]
  cases bangIndex t <;> simp

/-- Claim C5, witness: the theorem applied to the template `Hello there`
and the name `Sam`. -/
theorem claim_C5_witness :
    composeMessage "Hello there" "Sam" true = specPersonalize "Hello there" (jsTrim "Sam") :=
  claim_C5_personalization_insertion.1 "Hello there" "Sam" (by decide) (by decide)

/-- Claim C6: whenever the name is not resolved or trims to the empty
string, personalization is the identity — the composed message is the base
template, character for character. -/
theorem claim_C6_identity_on_absence :
    ∀ (t n : String) (nameFound : Bool), nameFound = false ∨ jsTrim n = "" →
      composeMessage t n nameFound = t := by
  intro t n nameFound h
  rcases h with h | h
  · simp [composeMessage, h]
  · simp [composeMessage, h]

/-- Claim C6, witness: an unresolved name and a whitespace-only name both
leave the template unchanged. -/
theorem claim_C6_witness :
    composeMessage "Hello there" "Sam" false = "Hello there" ∧
    composeMessage "Hi! Welcome" "   " true = "Hi! Welcome" :=
  ⟨claim_C6_identity_on_absence "Hello there" "Sam" false (Or.inl rfl),
   claim_C6_identity_on_absence "Hi! Welcome" "   " true (Or.inr (by decide))⟩

/-- Claim C2: for every processed account the tab is retained exactly when
the outcome is Drafted (Skipped and Failed close the tab), and in
particular a persistence failure after a successful draft still retains
the tab. -/
theorem claim_C2_tab_retention :
    (∀ row aenv, (processAccount row aenv).tabRetained = true ↔
        ∃ m, (processAccount row aenv).outcome = Outcome.drafted m) ∧
    (∀ row aenv, aenv.unexpectedFault = none →
        (processUser row aenv.penv).1.success = true → aenv.persistFails = true →
        (processAccount row aenv).tabRetained = true ∧
        ∃ m, (processAccount row aenv).outcome = Outcome.drafted m) := by
  constructor
  · intro row aenv
    unfold processAccount
    cases h : aenv.unexpectedFault with
    | some m => simp
    | none =>
      by_cases hs : ((processUser row aenv.penv).1).skipped <;>
        by_cases hv : ((processUser row aenv.penv).1).success <;>
          by_cases hp : aenv.persistFails <;> simp [hs, hv, hp]
  · intro row aenv hf hv hp
    have hs : (processUser row aenv.penv).1.skipped = false :=
      processUser_success_not_skipped row aenv.penv hv
    unfold processAccount
    simp [hf, hs, hv, hp]

/-- Claim C2, witness: a successful draft whose sheet write fails still
keeps its tab open, with a Drafted outcome. -/
theorem claim_C2_witness :
    (processAccount accountA envDraftPersistFail).tabRetained = true ∧
    ∃ m, (processAccount accountA envDraftPersistFail).outcome = Outcome.drafted m :=
  claim_C2_tab_retention.2 accountA envDraftPersistFail rfl (by decide) rfl

/-- Claim C3: whenever the conversation probe reports existing history
(after successful navigation and thread opening), the drafting operation is
never invoked, the processor result is marked skipped, and the terminal
outcome is Skipped — for every draft environment, hence regardless of
template or name state. -/
theorem claim_C3_conversation_short_circuit :
    ∀ (row : AccountRecord) (aenv : RunAccountEnv) (dm : DMOpenResult) (c : ConvoResult),
      aenv.unexpectedFault = none →
      aenv.penv.nav = none → aenv.penv.dmOpen = .ok dm → dm.success = true →
      aenv.penv.convo = .ok c → c.hasConversation = true →
      (processUser row aenv.penv).2 = false ∧
      (processUser row aenv.penv).1.skipped = true ∧
      ∃ reason, (processAccount row aenv).outcome = Outcome.skipped reason := by
  intro row aenv dm c hf hnav hdm hdms hc hcc
  have hu : processUser row aenv.penv =
      ({ username := row.username, rowIndex := row.rowIndex, success := false,
         skipped := true,
         error := some ("Existing conversation detected ("
           ++ toString c.messageCount ++ " messages)"), message := none }, false) := by
    unfold processUser
    rw [hnav, hdm, hc]
    simp [hdms, hcc]
  refine ⟨by rw [hu], by rw [hu], ?_⟩
  unfold processAccount
  rw [hf, hu]
  simp

/-- Claim C3, witness: the short-circuit evaluated on a concrete account
whose probe reports three existing messages. -/
theorem claim_C3_witness :
    (processUser accountA envSkip.penv).2 = false ∧
    (processUser accountA envSkip.penv).1.skipped = true ∧
    ∃ reason, (processAccount accountA envSkip).outcome = Outcome.skipped reason :=
  claim_C3_conversation_short_circuit accountA envSkip dmOpenOK convoYes
    rfl rfl rfl rfl rfl rfl

/-- Claim C10: when the persistence write fails after a successful draft,
the error counter is incremented, the drafted counter is not, and the tab
is retained, so the account neither counts toward the cap nor appears in
the drafted total. -/
theorem claim_C10_persist_failure_counters :
    ∀ (row : AccountRecord) (aenv : RunAccountEnv), aenv.unexpectedFault = none →
      (processUser row aenv.penv).1.success = true → aenv.persistFails = true →
      (processAccount row aenv).errorInc = 1 ∧
      (processAccount row aenv).draftedInc = 0 ∧
      (processAccount row aenv).tabRetained = true ∧
      ∀ s : RunStats,
        (applyStep s row (processAccount row aenv)).draftedCount = s.draftedCount ∧
        (applyStep s row (processAccount row aenv)).errorCount = s.errorCount + 1 := by
  intro row aenv hf hv hp
  have hs : (processUser row aenv.penv).1.skipped = false :=
    processUser_success_not_skipped row aenv.penv hv
  have ha : processAccount row aenv =
      { outcome := .drafted ((processUser row aenv.penv).1.message), tabRetained := true,
        draftedInc := 0, skippedInc := 0, errorInc := 1 } := by
    unfold processAccount
    rw [hf]
    simp [hs, hv, hp]
  refine ⟨by rw [ha], by rw [ha], by rw [ha], ?_⟩
  intro s
  rw [ha]
  simp [applyStep]

/-- Claim C10, witness: the counter effect evaluated on a concrete
account whose draft succeeds and whose sheet write fails. -/
theorem claim_C10_witness :
    (processAccount accountA envDraftPersistFail).errorInc = 1 ∧
    (processAccount accountA envDraftPersistFail).draftedInc = 0 ∧
    (processAccount accountA envDraftPersistFail).tabRetained = true ∧
    (applyStep initStats accountA (processAccount accountA envDraftPersistFail)).draftedCount
      = initStats.draftedCount ∧
    (applyStep initStats accountA (processAccount accountA envDraftPersistFail)).errorCount
      = initStats.errorCount + 1 := by
  have h := claim_C10_persist_failure_counters accountA envDraftPersistFail rfl (by decide) rfl
  exact ⟨h.1, h.2.1, h.2.2.1, (h.2.2.2 initStats).1, (h.2.2.2 initStats).2⟩

/-- Claim C4: once the drafted count has reached the configured cap the
loop issues no further account (the run state is returned unchanged), and
in particular with a cap of 2 and five eligible accounts that all draft
successfully, exactly two accounts are drafted and only two are ever
processed. -/
theorem claim_C4_cap_enforcement :
    (∀ (maxDraft : Nat) (accts : List (AccountRecord × RunAccountEnv)) (s : RunStats),
        maxDraft ≤ s.draftedCount → runLoop maxDraft accts s = s) ∧
    (runDrafting 2 fiveAccounts).draftedCount = 2 ∧
    (runDrafting 2 fiveAccounts).processed.length = 2 := by
  refine ⟨?_, by decide, by decide⟩
  intro maxDraft accts s h
  cases accts with
  | nil => rfl
  | cons hd tl =>
    obtain ⟨row, aenv⟩ := hd
    unfold runLoop
    rw [if_neg (by omega)]

/-- Claim C4, witness: a run state already at the cap is returned
untouched even though eligible accounts remain. -/
theorem claim_C4_witness :
    runLoop 2 fiveAccounts statsAtCap = statsAtCap :=
  claim_C4_cap_enforcement.1 2 fiveAccounts statsAtCap (by decide)

/-- Claim C7: every fault raised while processing one account — an
unexpected rejection of the processor call, a navigation fault, a
thread-open fault, or a conversation-probe fault — is converted into a
Failed outcome carrying the fault description and never increments the
drafted count, and the loop unconditionally continues with the remaining
accounts, so account N+1..end are still processed. -/
theorem claim_C7_fault_isolation :
    (∀ (row : AccountRecord) (aenv : RunAccountEnv) (m : String), m ≠ "" →
        aenv.unexpectedFault = some m →
        (processAccount row aenv).outcome = Outcome.failed m ∧
        (processAccount row aenv).draftedInc = 0) ∧
    (∀ (row : AccountRecord) (aenv : RunAccountEnv) (m : String), m ≠ "" →
        aenv.unexpectedFault = none → aenv.penv.nav = some m →
        (processAccount row aenv).outcome = Outcome.failed m) ∧
    (∀ (row : AccountRecord) (aenv : RunAccountEnv) (m : String), m ≠ "" →
        aenv.unexpectedFault = none → aenv.penv.nav = none →
        aenv.penv.dmOpen = .error m →
        (processAccount row aenv).outcome = Outcome.failed m) ∧
    (∀ (row : AccountRecord) (aenv : RunAccountEnv) (dm : DMOpenResult) (m : String),
        m ≠ "" → aenv.unexpectedFault = none → aenv.penv.nav = none →
        aenv.penv.dmOpen = .ok dm → dm.success = true → aenv.penv.convo = .error m →
        (processAccount row aenv).outcome = Outcome.failed m) ∧
    (∀ (maxDraft : Nat) (row : AccountRecord) (aenv : RunAccountEnv)
        (rest : List (AccountRecord × RunAccountEnv)) (s : RunStats),
        s.draftedCount < maxDraft →
        runLoop maxDraft ((row, aenv) :: rest) s =
          runLoop maxDraft rest (applyStep s row (processAccount row aenv))) := by
  refine ⟨?_, ?_, ?_, ?_, ?_⟩
  · intro row aenv m hm hf
    unfold processAccount
    rw [hf]
    simp [jsOrS, hm]
  · intro row aenv m hm hf hnav
    have hu : (processUser row aenv.penv).1 =
        { username := row.username, rowIndex := row.rowIndex, success := false,
          skipped := false, error := some (jsOrS m "Error"), message := none } := by
      unfold processUser
      rw [hnav]
    unfold processAccount
    rw [hf]
    simp [hu, jsOr, jsOrS, hm]
  · intro row aenv m hm hf hnav hdm
    have hu : (processUser row aenv.penv).1 =
        { username := row.username, rowIndex := row.rowIndex, success := false,
          skipped := false, error := some (jsOrS m "Error"), message := none } := by
      unfold processUser
      rw [hnav, hdm]
    unfold processAccount
    rw [hf]
    simp [hu, jsOr, jsOrS, hm]
  · intro row aenv dm m hm hf hnav hdm hdms hc
    have hu : (processUser row aenv.penv).1 =
        { username := row.username, rowIndex := row.rowIndex, success := false,
          skipped := false, error := some (jsOrS m "Error"), message := none } := by
      unfold processUser
      rw [hnav, hdm, hc]
      simp [hdms]
    unfold processAccount
    rw [hf]
    simp [hu, jsOr, jsOrS, hm]
  · intro maxDraft row aenv rest s h
    rw [runLoop, if_pos h]

/-- Claim C7, witness: each fault site evaluated on a concrete account,
and the loop continuing past a faulting first account. -/
theorem claim_C7_witness :
    (processAccount accountA envFault).outcome = Outcome.failed "boom" ∧
    (processAccount accountA envNavFault).outcome = Outcome.failed "navboom" ∧
    (processAccount accountA envOpenFault).outcome = Outcome.failed "openboom" ∧
    (processAccount accountA envConvoFault).outcome = Outcome.failed "convoboom" ∧
    runLoop 1 [(accountA, envFault), (accountB, envDraftOK)] initStats =
      runLoop 1 [(accountB, envDraftOK)]
        (applyStep initStats accountA (processAccount accountA envFault)) :=
  ⟨(claim_C7_fault_isolation.1 accountA envFault "boom" (by decide) rfl).1,
   claim_C7_fault_isolation.2.1 accountA envNavFault "navboom" (by decide) rfl rfl,
   claim_C7_fault_isolation.2.2.1 accountA envOpenFault "openboom" (by decide) rfl rfl rfl,
   claim_C7_fault_isolation.2.2.2.1 accountA envConvoFault dmOpenOK "convoboom"
     (by decide) rfl rfl rfl rfl rfl,
   claim_C7_fault_isolation.2.2.2.2 1 accountA envFault [(accountB, envDraftOK)]
     initStats (by decide)⟩

/-- Claim C9: the dry-run report is exactly the first maxDraft entries of
the filtered list; only a Drafted outcome increments the drafted counter,
so a real run can process more than maxDraft accounts — concretely, with a
cap of 1, a skipped first account and a drafting second account, the real
run processes two accounts while the dry run reports one. -/
theorem claim_C9_dry_run_cap :
    (∀ (rows : List AccountRecord) (maxDraft : Nat),
        dryRunReport rows maxDraft = rows.take maxDraft) ∧
    (∀ (row : AccountRecord) (aenv : RunAccountEnv),
        (processAccount row aenv).draftedInc = 1 →
        ∃ m, (processAccount row aenv).outcome = Outcome.drafted m) ∧
    (dryRunReport [accountA, accountB] 1).length = 1 ∧
    (runDrafting 1 [(accountA, envSkip), (accountB, envDraftOK)]).processed.length = 2 := by
  refine ⟨?_, ?_, by decide, by decide⟩
  · intro rows maxDraft
    simp [dryRunReport, jsSlice]
  · intro row aenv h
    obtain ⟨penv, uf, pf⟩ := aenv
    cases uf with
    | some m => simp [processAccount] at h
    | none =>
      by_cases hs : ((processUser row penv).1).skipped
      · simp [processAccount, hs] at h
      · by_cases hv : ((processUser row penv).1).success <;>
          by_cases hp : pf <;> simp [processAccount, hs, hv, hp] at h ⊢

/-- Claim C9, witness: the only way a concrete account increments the
drafted counter is a Drafted outcome. -/
theorem claim_C9_witness :
    ∃ m, (processAccount accountB envDraftOK).outcome = Outcome.drafted m :=
  claim_C9_dry_run_cap.2.1 accountB envDraftOK (by decide)

/-- Claim C8: the outcome writer updates exactly the Date Sent, Message
and Status cells of the single addressed row — every other cell of the
sheet is unchanged — and it throws without performing any write whenever
the row index is not an integer greater than or equal to 2. -/
theorem claim_C8_update_frame :
    (∀ (sheet : SheetState) (ri : Rat) (d m st : String) (af : Bool),
        ¬(ri.den = 1 ∧ 2 ≤ ri) →
        updateDraftData sheet ri d m st af =
          .error "Invalid rowIndex: must be an integer >= 2 (row 1 is header)") ∧
    (∀ (sheet : SheetState) (ri : Rat) (d m st : String) (af : Bool) (sheet2 : SheetState),
        updateDraftData sheet ri d m st af = .ok sheet2 →
        sheet2 ri.num.toNat DATE_SENT_COL = d ∧
        sheet2 ri.num.toNat MESSAGE_COL = m ∧
        sheet2 ri.num.toNat STATUS_COL = st ∧
        ∀ r c, r ≠ ri.num.toNat ∨ (c ≠ DATE_SENT_COL ∧ c ≠ MESSAGE_COL ∧ c ≠ STATUS_COL) →
          sheet2 r c = sheet r c) := by
  constructor
  · intro sheet ri d m st af h
    unfold updateDraftData
    rw [if_pos h]
  · intro sheet ri d m st af sheet2 h
    unfold updateDraftData at h
    split at h
    · simp at h
    · split at h
      · simp at h
      · split at h
        · simp at h
        · split at h
          · simp at h
          · have h2 : sheet2 = writeDraftCells sheet ri.num.toNat d m st := by
              injection h with h3
              exact h3.symm
            subst h2
            refine ⟨?_, ?_, ?_, ?_⟩
            · simp [writeDraftCells]
            · simp [writeDraftCells, DATE_SENT_COL, MESSAGE_COL]
            · simp [writeDraftCells, DATE_SENT_COL, MESSAGE_COL, STATUS_COL]
            · intro r c hrc
              unfold writeDraftCells
              rcases hrc with hr | ⟨h3, h4, h5⟩
              · rw [if_neg (by tauto), if_neg (by tauto), if_neg (by tauto)]
              · rw [if_neg (by tauto), if_neg (by tauto), if_neg (by tauto)]

/-- Claim C8, witness: a row index of 1 is rejected, and a concrete
successful write at row 2 sets the Date Sent cell and leaves an unrelated
cell unchanged. -/
theorem claim_C8_witness :
    updateDraftData emptySheet 1 "2025-01-01T00:00:00Z" "hello" "Drafted" false =
      .error "Invalid rowIndex: must be an integer >= 2 (row 1 is header)" ∧
    writeDraftCells emptySheet (2 : Rat).num.toNat "2025-01-01T00:00:00Z" "hello" "Drafted"
      (2 : Rat).num.toNat DATE_SENT_COL = "2025-01-01T00:00:00Z" ∧
    writeDraftCells emptySheet (2 : Rat).num.toNat "2025-01-01T00:00:00Z" "hello" "Drafted"
      3 0 = emptySheet 3 0 := by
  have h1 := claim_C8_update_frame.1 emptySheet 1 "2025-01-01T00:00:00Z" "hello" "Drafted"
    false (by decide)
  have h2 := claim_C8_update_frame.2 emptySheet 2 "2025-01-01T00:00:00Z" "hello" "Drafted"
    false (writeDraftCells emptySheet (2 : Rat).num.toNat "2025-01-01T00:00:00Z" "hello"
      "Drafted") rfl
  exact ⟨h1, h2.1, h2.2.2.2 3 0 (Or.inr (by decide))⟩
